import Mathlib

/-!
Verification development for the cryostat logging core of `coo-tools`
(`detlab/logcryo.py` and `detlab/cryopress.py`): a shallow embedding of the
pressure/temperature protocol exchanges, the per-device mutex discipline,
and the bounded-retry policy, together with theorems checking the
natural-language specification against this embedding.

Modelling conventions:
* byte strings are `String` (the devices speak ASCII);
* the socket is an oracle of received chunks (`List String`, one entry per
  `recv` call; an exhausted list models a `select`/`recv` timeout);
* numeric device readings are exact decimals (`Dec`, value `mant / 10^scale`),
  so every computation in the model is kernel-computable;
* each collector returns a `CallTrace` recording, besides the Python return
  value, whether the mutex was acquired/released, whether `open_socket` was
  called, whether `sock.close()` ran, and the messages sent, in order.
-/

/- ## Wire constants (logcryo.py lines 93-97, cryopress.py lines 27-29) -/

/-- Pfeiffer TPG positive acknowledge: bytes 0x06 0x0d 0x0a. -/
def ackStr : String := "\x06\x0d\x0a"

/-- Pfeiffer TPG negative acknowledge: bytes 0x15 0x0d 0x0a. -/
def nakStr : String := "\x15\x0d\x0a"

/-- Pfeiffer TPG enquiry byte 0x05. -/
def enqStr : String := "\x05"

/-- logcryo.py line 85: maximum retry count of the retry wrapper. -/
def MAX_RETRIES : Nat := 3

/- ## Python string primitives used by the source -/

/-- Does `needle` occur at the start of `hay`? (helper for substring search). -/
def startsWithL : List Char → List Char → Bool
| [], _ => true
| _ :: _, [] => false
| a :: as, b :: bs => a = b && startsWithL as bs

/-- Python `needle in hay` for strings, in list-of-characters form. -/
def containsSubL (needle : List Char) : List Char → Bool
| [] => startsWithL needle []
| c :: rest => startsWithL needle (c :: rest) || containsSubL needle rest

/-- Python `needle in hay` for strings. -/
def containsSub (needle hay : String) : Bool := containsSubL needle.data hay.data

/-- Python `'\n' in s` (also `b'\n' in s` on byte strings). -/
def hasLF (s : String) : Bool := s.data.contains '\n'

/-- Python `s[:s.find(c)]` under the guard `c in s`: the characters strictly
before the first occurrence of `c`. -/
def takeBefore (c : Char) (s : String) : String :=
  String.mk (s.data.takeWhile (fun a => a != c))

/-- Helper for `pySplit`: split on `sep`, accumulating the current field
in reverse. -/
def splitSepAux (sep : Char) : List Char → List Char → List String
| [], acc => [String.mk acc.reverse]
| c :: rest, acc =>
  if c = sep then String.mk acc.reverse :: splitSepAux sep rest []
  else splitSepAux sep rest (c :: acc)

/-- Python `s.split(sep)` with an explicit one-character separator
(so `"".split(',') = [""]`, and fields may be empty). -/
def pySplit (sep : Char) (s : String) : List String := splitSepAux sep s.data []

/-- The characters Python's `str.strip()` removes. -/
def isPySpace (c : Char) : Bool :=
  c = ' ' || c = '\t' || c = '\n' || c = '\r' || c = '\x0b' || c = '\x0c'

/-- Python `s.strip()`. -/
def pyStrip (s : String) : String :=
  String.mk (((s.data.dropWhile isPySpace).reverse.dropWhile isPySpace).reverse)

/-- Python `s.isdigit()` on ASCII: nonempty and all decimal digits. -/
def pyIsdigit (s : String) : Bool := !s.data.isEmpty && s.data.all Char.isDigit

/-- Python `s[a:b]` for character indices `a ≤ b`. -/
def pySlice (s : String) (a b : Nat) : String :=
  String.mk ((s.data.drop a).take (b - a))

/- ## Exact decimal numbers -/

/-- An exact decimal: the value `mant / 10 ^ scale`. Device readings are
decimal ASCII literals, so parsing and the only arithmetic the source
performs on them (multiplication by 1000) stay exact in this form. -/
structure Dec where
  mant : Int
  scale : Nat
deriving Repr, DecidableEq

/-- The rational value of an exact decimal. -/
def Dec.val (d : Dec) : ℚ := (d.mant : ℚ) / (10 : ℚ) ^ d.scale

/-- Python `d * 1000.` on a parsed reading (exact on decimals). -/
def Dec.mul1000 (d : Dec) : Dec := ⟨d.mant * 1000, d.scale⟩

/-- Numeric value of a digit list, most significant first. -/
def digitsToNat (ds : List Char) : Nat :=
  ds.foldl (fun n c => 10 * n + (c.toNat - 48)) 0

/-- Python `int(s)`: optional sign then one or more decimal digits, with
surrounding whitespace stripped; `none` models a `ValueError`. -/
def parseInt (s : String) : Option Int :=
  let cs := (pyStrip s).data
  match cs with
  | '+' :: t => if !t.isEmpty && t.all Char.isDigit then some (digitsToNat t) else none
  | '-' :: t => if !t.isEmpty && t.all Char.isDigit then some (-(digitsToNat t : Int)) else none
  | t => if !t.isEmpty && t.all Char.isDigit then some (digitsToNat t) else none

/-- Mantissa of a Python float literal: digits with at most one decimal
point and at least one digit; returns the decimal and the remaining input. -/
def parseMantissa (cs : List Char) : Option (Dec × List Char) :=
  let ip := cs.takeWhile Char.isDigit
  let r1 := cs.dropWhile Char.isDigit
  match r1 with
  | '.' :: r2 =>
    let fp := r2.takeWhile Char.isDigit
    let r3 := r2.dropWhile Char.isDigit
    if ip.isEmpty && fp.isEmpty then none
    else some (⟨digitsToNat (ip ++ fp), fp.length⟩, r3)
  | _ => if ip.isEmpty then none else some (⟨digitsToNat ip, 0⟩, r1)

/-- Apply a base-ten exponent to an exact decimal. -/
def Dec.tenPow (d : Dec) (e : Int) : Dec :=
  if 0 ≤ e then ⟨d.mant * 10 ^ e.toNat, d.scale⟩ else ⟨d.mant, d.scale + (-e).toNat⟩

/-- Exponent tail `e±ddd` of a Python float literal, applied to mantissa `m`. -/
def parseExpTail (m : Dec) (cs : List Char) : Option Dec :=
  match cs with
  | '+' :: t => if !t.isEmpty && t.all Char.isDigit then some (m.tenPow (digitsToNat t)) else none
  | '-' :: t => if !t.isEmpty && t.all Char.isDigit then some (m.tenPow (-(digitsToNat t : Int))) else none
  | t => if !t.isEmpty && t.all Char.isDigit then some (m.tenPow (digitsToNat t)) else none

/-- Negate an exact decimal. -/
def Dec.neg (d : Dec) : Dec := ⟨-d.mant, d.scale⟩

/-- Python `float(s)` on the finite decimal literals the devices emit:
optional sign, decimal mantissa, optional `e`/`E` exponent, surrounding
whitespace stripped; `none` models a `ValueError`. -/
def parseFloat (s : String) : Option Dec :=
  let cs := (pyStrip s).data
  let signed : Bool × List Char :=
    match cs with
    | '+' :: t => (false, t)
    | '-' :: t => (true, t)
    | t => (false, t)
  match parseMantissa signed.2 with
  | none => none
  | some (m, rest) =>
    let m := if signed.1 then m.neg else m
    match rest with
    | [] => some m
    | 'e' :: r => parseExpTail m r
    | 'E' :: r => parseExpTail m r
    | _ => none

/- ## Socket read primitives -/

/-- `read_tpg` (logcryo.py lines 192-204): `recv` until a chunk contains
`b'\n'` and return that chunk — each `recv` overwrites `ret`, so earlier
chunks are discarded, exactly as in the source. An exhausted chunk list
models the 3 s `select` timeout, on which the source returns `None`. -/
def read_tpg : List String → Option String
| [] => none
| c :: rest => if hasLF c then some c else read_tpg rest

/-- `get_reply` (cryopress.py lines 65-77): like `read_tpg`, except that on
a `select` timeout the loop breaks with `reply` still holding the previous
chunk (or `None` if nothing was ever received). -/
def get_reply : Option String → List String → Option String
| last, [] => last
| _, c :: rest => if hasLF c then some c else get_reply (some c) rest

/- ## Temperature incremental reader (logcryo.py lines 493-526) -/

/-- The busy marker of the shared Perle terminal server. -/
def huntBusy : String := "Selected hunt group busy"

/-- Outcome of the per-channel receive loop of `get_temps`. -/
inductive TempRead where
| busy : TempRead
| timeout : TempRead
| ok (datl : List String) : TempRead
deriving Repr, DecidableEq

/-- The `while endchar not in temp` receive loop of `get_temps` for one
channel: each chunk is checked for the busy marker, then for the `\n`
terminator (trim and stop); otherwise it is appended to `datl`, and when
`datl` has more than one element the source also checks whether joining the
last two pieces reveals a terminator (kept here although a one-character
terminator can never make that branch fire). The exhausted chunk list is
the `recv` timeout, which raises in the source. -/
def tempReadLoop (datl : List String) : List String → TempRead
| [] => .timeout
| temp :: rest =>
  if containsSub huntBusy temp then .busy
  else if hasLF temp then .ok (datl ++ [takeBefore '\n' temp])
  else
    match datl.getLast? with
    | some p =>
      if hasLF (p ++ temp) then .ok (datl.dropLast ++ [takeBefore '\n' (p ++ temp)])
      else tempReadLoop (datl ++ [temp]) rest
    | none => tempReadLoop (datl ++ [temp]) rest

/-- Outcome of one channel of `get_temps` as seen by the channel loop. -/
inductive ChanOutcome where
| busy : ChanOutcome
| errOut : ChanOutcome
| val (q : Dec) : ChanOutcome
deriving Repr, DecidableEq

/-- One channel of `get_temps` after its query is sent: run the receive
loop, then `float(''.join(datl))`; a timeout or parse failure is the
exception path of the source's per-channel `try` block. -/
def readChan (chunks : List String) : ChanOutcome :=
  match tempReadLoop [] chunks with
  | .busy => .busy
  | .timeout => .errOut
  | .ok datl =>
    match parseFloat (String.join datl) with
    | none => .errOut
    | some q => .val q

/-- The query `get_temps` sends for a channel: heaters are purely numeric
identifiers (`HTR?`), anything else is a temperature sensor (`KRDG?`). -/
def tempQuery (chit : String) : String :=
  if pyIsdigit chit then "HTR? " ++ chit ++ "\n" else "KRDG? " ++ chit ++ "\n"

/- ## Call traces -/

/-- Observable effects of one collector call: the returned value plus which
lock/socket events happened and the messages sent over the socket. -/
structure CallTrace (α : Type) where
  result : α
  acquireCalled : Bool
  released : Bool
  openCalled : Bool
  sockClosed : Bool
  sent : List String
deriving Repr, DecidableEq

/- ## get_temps (logcryo.py lines 454-538) -/

/-- Return value of `get_temps`: `'BSY'`, `'ERR'`, or the reading list (the
`ok` payload is the entries appended after the leading timestamp entry). -/
inductive TempResult where
| bsy : TempResult
| err : TempResult
| ok (vals : List Dec) : TempResult
deriving Repr, DecidableEq

/-- Environment of one `get_temps` call: the configured channel string, the
mutex/socket conditions this call observes, and the chunks `recv` yields
while the `i`-th channel is being read. `acquireSucceeds` is the result of
the bounded `mutex.acquire(timeout=10)` — the source discards it. -/
structure TempEnv where
  tempchans : String
  lockedAtEntry : Bool
  acquireSucceeds : Bool
  sockOpens : Bool
  chunks : Nat → List String

/-- The per-channel `for` loop of `get_temps`; `i` is the channel position
(indexing the chunk oracle), `sent` and `vals` accumulate. Every exit path
inside the loop closes the socket and releases the mutex. -/
def get_tempsLoop (chunks : Nat → List String) : List String → Nat → List String → List Dec →
    CallTrace TempResult
| [], _, sent, vals =>
  { result := .ok vals, acquireCalled := true, released := true,
    openCalled := true, sockClosed := true, sent := sent }
| chit :: rest, i, sent, vals =>
  let sent' := sent ++ [tempQuery chit]
  match readChan (chunks i) with
  | .busy =>
    { result := .bsy, acquireCalled := true, released := true,
      openCalled := true, sockClosed := true, sent := sent' }
  | .errOut =>
    { result := .err, acquireCalled := true, released := true,
      openCalled := true, sockClosed := true, sent := sent' }
  | .val q => get_tempsLoop chunks rest (i + 1) sent' (vals ++ [q])

/-- `get_temps`: probe the temperature mutex (`'BSY'` if already locked),
acquire it with a 10 s bound (result discarded), open the socket (release
and `'ERR'` on failure), then read every configured channel in order. -/
def get_temps (env : TempEnv) : CallTrace TempResult :=
  if env.lockedAtEntry then
    { result := .bsy, acquireCalled := false, released := false,
      openCalled := false, sockClosed := false, sent := [] }
  else if !env.sockOpens then
    { result := .err, acquireCalled := true, released := true,
      openCalled := true, sockClosed := false, sent := [] }
  else
    get_tempsLoop env.chunks (pySplit ',' env.tempchans) 0 [] []

/- ## get_tpg (logcryo.py lines 377-446) -/

/-- Return value of `get_tpg` (payload: entries after the timestamp). -/
inductive TpgResult where
| bsy : TpgResult
| err : TpgResult
| ok (vals : List Dec) : TpgResult
deriving Repr, DecidableEq

/-- Environment of one `get_tpg` call. `chunks r` is what `recv` yields
during the `r`-th `read_tpg` call (two reads per channel). The InfluxDB
write inside the loop is modelled as an effect-free external call. -/
structure TpgEnv where
  presschans : List Int
  lockedAtEntry : Bool
  acquireSucceeds : Bool
  sockOpens : Bool
  chunks : Nat → List String

/-- The `PR<chan>\r\n` command of the read-pressure exchange. -/
def prCommand (ichan : Int) : String := "PR" ++ toString ichan ++ "\r\n"

/-- The `except` exit of `get_tpg`: close the socket, release the mutex,
return `'ERR'`. -/
def tpgErrExit (sent : List String) : CallTrace TpgResult :=
  { result := .err, acquireCalled := true, released := true,
    openCalled := true, sockClosed := true, sent := sent }

/-- The per-channel loop of `get_tpg`: send `PR<chan>`, read the first
reply, send ENQ only when that reply is exactly ACK (otherwise just log),
read the second reply, split on commas and parse field 1 as a float times
1000. A `None` reply (`.decode` on `None`), a missing field 1
(`IndexError`) or an unparsable field (`ValueError`) all raise into the
`except` branch, which closes, releases and returns `'ERR'`. -/
def get_tpgLoop (chunks : Nat → List String) : List Int → Nat → List String → List Dec →
    CallTrace TpgResult
| [], _, sent, vals =>
  { result := .ok vals, acquireCalled := true, released := true,
    openCalled := true, sockClosed := true, sent := sent }
| ichan :: rest, r, sent, vals =>
  let sent1 := sent ++ [prCommand ichan]
  let rep1 := read_tpg (chunks r)
  let sent2 := if rep1 = some ackStr then sent1 ++ [enqStr] else sent1
  match read_tpg (chunks (r + 1)) with
  | none => tpgErrExit sent2
  | some s =>
    match (pySplit ',' s)[1]? with
    | none => tpgErrExit sent2
    | some f =>
      match parseFloat f with
      | none => tpgErrExit sent2
      | some q => get_tpgLoop chunks rest (r + 2) sent2 (vals ++ [q.mul1000])

/-- `get_tpg`: probe the pressure mutex (`'BSY'` if locked), acquire with a
10 s bound (result discarded), open the socket (release and `'ERR'` on
failure), then run the ACK/ENQ exchange for every configured channel. -/
def get_tpg (env : TpgEnv) : CallTrace TpgResult :=
  if env.lockedAtEntry then
    { result := .bsy, acquireCalled := false, released := false,
      openCalled := false, sockClosed := false, sent := [] }
  else if !env.sockOpens then
    { result := .err, acquireCalled := true, released := true,
      openCalled := true, sockClosed := false, sent := [] }
  else
    get_tpgLoop env.chunks env.presschans 0 [] []

/- ## sen_stat and sen_onoff (logcryo.py lines 214-369) -/

/-- Return value of the sensor status/power functions (payload: the integer
statuses appended after the timestamp). -/
inductive SenResult where
| bsy : SenResult
| err : SenResult
| ok (stats : List Int) : SenResult
deriving Repr, DecidableEq

/-- Parse every comma field with `int(...)`; the source's loop raises on
the first bad field, discarding the partial list. -/
def parseInts : List String → Option (List Int)
| [] => some []
| s :: rest =>
  match parseInt s, parseInts rest with
  | some v, some vs => some (v :: vs)
  | _, _ => none

/-- Environment of a `sen_stat` call (same shape as the other pressure
exchanges; `chunks r` feeds the `r`-th `read_tpg` call). -/
structure SenEnv where
  lockedAtEntry : Bool
  acquireSucceeds : Bool
  sockOpens : Bool
  chunks : Nat → List String

/-- `sen_stat` (lines 310-369): probe, acquire (result discarded), open,
send `SEN\r\n`, expect ACK then ENQ, read and parse the status list.
On a non-ACK first reply the source does `return 'ERR'` directly from the
`try` block — without `sock.close()` and without `mutex_press.release()`. -/
def sen_stat (env : SenEnv) : CallTrace SenResult :=
  if env.lockedAtEntry then
    { result := .bsy, acquireCalled := false, released := false,
      openCalled := false, sockClosed := false, sent := [] }
  else if !env.sockOpens then
    { result := .err, acquireCalled := true, released := true,
      openCalled := true, sockClosed := false, sent := [] }
  else
    let sent := ["SEN\r\n"]
    if read_tpg (env.chunks 0) = some ackStr then
      let sent := sent ++ [enqStr]
      match read_tpg (env.chunks 1) with
      | none =>
        { result := .err, acquireCalled := true, released := true,
          openCalled := true, sockClosed := true, sent := sent }
      | some s =>
        match parseInts (pySplit ',' s) with
        | none =>
          { result := .err, acquireCalled := true, released := true,
            openCalled := true, sockClosed := true, sent := sent }
        | some stats =>
          { result := .ok stats, acquireCalled := true, released := true,
            openCalled := true, sockClosed := true, sent := sent }
    else
      { result := .err, acquireCalled := true, released := false,
        openCalled := true, sockClosed := false, sent := sent }

/-- Environment of a `sen_onoff` call. -/
structure SenOnoffEnv where
  presschans : List Int
  pressnumchans : Nat
  lockedAtEntry : Bool
  acquireSucceeds : Bool
  sockOpens : Bool
  chunks : Nat → List String

/-- The per-channel field of the `SEN` command: `2` turns the target
channel on, `1` turns it off, `0` leaves a channel unchanged. -/
def senField (chan : Int) (onoff : Bool) (ichan : Int) : Nat :=
  if chan = ichan then (if onoff then 2 else 1) else 0

/-- The command `sen_onoff` builds: `SEN` followed by one comma-prefixed
field per controller channel `1..numChans`, terminated by CRLF. -/
def sen_onoff_cmd (numChans : Nat) (chan : Int) (onoff : Bool) : String :=
  "SEN" ++
    String.join ((List.range' 1 numChans).map
      (fun i => "," ++ Nat.repr (senField chan onoff (i : Int)))) ++ "\r\n"

/-- `sen_onoff` (lines 214-301): if the requested channel is in the
configured `presschans` list the source prints "Channel not configured"
and returns `'ERR'` before touching the mutex or the socket; otherwise it
probes, acquires, opens, sends the `SEN,...` command and runs the ACK/ENQ
exchange. Unlike `sen_stat`, its non-ACK branch closes the socket and
releases the mutex before returning `'ERR'`. -/
def sen_onoff (env : SenOnoffEnv) (chan : Int) (onoff : Bool) : CallTrace SenResult :=
  if chan ∈ env.presschans then
    { result := .err, acquireCalled := false, released := false,
      openCalled := false, sockClosed := false, sent := [] }
  else if env.lockedAtEntry then
    { result := .bsy, acquireCalled := false, released := false,
      openCalled := false, sockClosed := false, sent := [] }
  else if !env.sockOpens then
    { result := .err, acquireCalled := true, released := true,
      openCalled := true, sockClosed := false, sent := [] }
  else
    let sent := [sen_onoff_cmd env.pressnumchans chan onoff]
    if read_tpg (env.chunks 0) = some ackStr then
      let sent := sent ++ [enqStr]
      match read_tpg (env.chunks 1) with
      | none =>
        { result := .err, acquireCalled := true, released := true,
          openCalled := true, sockClosed := true, sent := sent }
      | some s =>
        match parseInts (pySplit ',' s) with
        | none =>
          { result := .err, acquireCalled := true, released := true,
            openCalled := true, sockClosed := true, sent := sent }
        | some stats =>
          { result := .ok stats, acquireCalled := true, released := true,
            openCalled := true, sockClosed := true, sent := sent }
    else
      { result := .err, acquireCalled := true, released := true,
        openCalled := true, sockClosed := true, sent := sent }

/- ## get_press (logcryo.py lines 546-581) -/

/-- Return value of `get_press`; `uncaught` marks an exception escaping the
function (its body has no exception handler). -/
inductive PressResult where
| err : PressResult
| ok (press : Dec) : PressResult
| uncaught : PressResult
deriving Repr, DecidableEq

/-- Environment of a `get_press` call: whether the socket opens and the
chunk stream of its single read loop. -/
structure GetPressEnv where
  sockOpens : Bool
  chunks : List String

/-- The `while bytesread < 13` accumulation loop of `get_press`; an
exhausted chunk list is the `select` timeout. -/
def pressAccum (reply : String) : List String → Option String
| [] => none
| c :: rest =>
  let r := reply ++ c
  if 13 ≤ r.length then some r else pressAccum r rest

/-- `get_press`: a blocking `mutex_press.acquire()` with no probe, then
open the socket, send `#01RD\r` and accumulate at least 13 bytes, then
`float(reply[3:12])`. The source never calls `sock.close()` on any path,
returns `'ERR'` without releasing the mutex both when the socket fails to
open and on a read timeout, and releases it only on the success path. -/
def get_press (env : GetPressEnv) : CallTrace PressResult :=
  if !env.sockOpens then
    { result := .err, acquireCalled := true, released := false,
      openCalled := true, sockClosed := false, sent := [] }
  else
    let sent := ["#01RD\r"]
    match pressAccum "" env.chunks with
    | none =>
      { result := .err, acquireCalled := true, released := false,
        openCalled := true, sockClosed := false, sent := sent }
    | some reply =>
      match parseFloat (pySlice reply 3 12) with
      | none =>
        { result := .uncaught, acquireCalled := true, released := false,
          openCalled := true, sockClosed := false, sent := sent }
      | some q =>
        { result := .ok q, acquireCalled := true, released := true,
          openCalled := true, sockClosed := false, sent := sent }

/- ## read_pressure (cryopress.py lines 88-118) -/

/-- Return value of `read_pressure` (payload: entries after the timestamp);
`uncaught` marks an exception the function does not handle (a `None`
reply's `.decode`, a `ValueError` from `float`, or one from `int`). -/
inductive RPResult where
| ok (vals : List Dec) : RPResult
| uncaught : RPResult
deriving Repr, DecidableEq

/-- Environment of a `read_pressure` call: the configured channel list and
the chunks of the `r`-th `get_reply` call (two per channel). -/
structure ReadPressEnv where
  presschans : List Int
  chunks : Nat → List String

/-- The per-channel loop of `read_pressure`: send `PR<chan>`, read; if the
reply is exactly ACK send ENQ (else only log) — then send ENQ again
unconditionally; read the data reply, split on commas. A missing field 1
is an `IndexError` the source catches by appending `-1.0`; then `ans[0]`
is parsed with `int` for the status print. Returns the sent messages and
the result. -/
def read_pressureLoop (env : ReadPressEnv) : List Int → Nat → List String → List Dec →
    List String × RPResult
| [], _, sent, vals => (sent, .ok vals)
| ichan :: rest, r, sent, vals =>
  let sent1 := sent ++ [prCommand ichan]
  let rep1 := get_reply none (env.chunks r)
  let sent2 := if rep1 = some ackStr then sent1 ++ [enqStr] else sent1
  let sent3 := sent2 ++ [enqStr]
  match get_reply none (env.chunks (r + 1)) with
  | none => (sent3, .uncaught)
  | some s =>
    let ans := pySplit ',' s
    match ans[1]? with
    | none =>
      match parseInt (ans.headD "") with
      | none => (sent3, .uncaught)
      | some _ => read_pressureLoop env rest (r + 2) sent3 (vals ++ [⟨-1, 0⟩])
    | some f =>
      match parseFloat f with
      | none => (sent3, .uncaught)
      | some q =>
        match parseInt (ans.headD "") with
        | none => (sent3, .uncaught)
        | some _ => read_pressureLoop env rest (r + 2) sent3 (vals ++ [q.mul1000])

/-- `read_pressure`: run the exchange over all configured channels. -/
def read_pressure (env : ReadPressEnv) : List String × RPResult :=
  read_pressureLoop env env.presschans 0 [] []

/- ## Retry wrapper (logcryo.py logpress lines 685-767, logtemp lines 777-846) -/

/-- The value the retry loop sees from one collection call (`None`,
`'ERR'`, `'BSY'`, or a reading). -/
inductive LogCollect where
| noneV : LogCollect
| err : LogCollect
| bsy : LogCollect
| ok (vals : List Dec) : LogCollect

/-- Observable effects of one `logpress`/`logtemp` cycle: how many times
the collector was invoked, the slept backoff durations in order, and the
data lines appended to the log files (file-system bookkeeping such as
header lines is outside the model). -/
structure LogOut where
  calls : Nat
  sleeps : List ℚ
  writes : List (List Dec)
deriving DecidableEq

/-- The `while retry_count < MAX_RETRIES` loop of `logpress`. `fuel` is
`MAX_RETRIES - retry_count`, so the loop guard is `fuel > 0`; `k` counts
collector calls and indexes the backoff oracle (`uniform(RND0, RND1)`
draws). `None` and `'ERR'` break with no write; a reading is written to
the day file and the cumulative file and breaks; `'BSY'` increments
`retry_count`, returning immediately when it reaches `MAX_RETRIES`
(`retry_count >= MAX_RETRIES` in the source) and otherwise sleeping the
fresh backoff draw before retrying. -/
def logpressLoop (collect : Nat → LogCollect) (backoff : Nat → ℚ) :
    Nat → Nat → List ℚ → LogOut
| 0, k, sleeps => { calls := k, sleeps := sleeps, writes := [] }
| fuel + 1, k, sleeps =>
  match collect k with
  | .noneV => { calls := k + 1, sleeps := sleeps, writes := [] }
  | .err => { calls := k + 1, sleeps := sleeps, writes := [] }
  | .ok v => { calls := k + 1, sleeps := sleeps, writes := [v, v] }
  | .bsy =>
    if fuel = 0 then { calls := k + 1, sleeps := sleeps, writes := [] }
    else logpressLoop collect backoff fuel (k + 1) (sleeps ++ [backoff k])

/-- `logpress`: set up the log-file structure (abandon the cycle when that
fails), then run the retry loop with `MAX_RETRIES` fuel. -/
def logpress (checkFilesOk : Bool) (collect : Nat → LogCollect) (backoff : Nat → ℚ) :
    LogOut :=
  if !checkFilesOk then { calls := 0, sleeps := [], writes := [] }
  else logpressLoop collect backoff MAX_RETRIES 0 []

/-- The retry loop of `logtemp`: identical control flow to `logpressLoop`
except that a reading is written to a single file and the give-up test is
`retry_count == MAX_RETRIES` (equivalent here, since `retry_count` rises
by one from zero). -/
def logtempLoop (collect : Nat → LogCollect) (backoff : Nat → ℚ) :
    Nat → Nat → List ℚ → LogOut
| 0, k, sleeps => { calls := k, sleeps := sleeps, writes := [] }
| fuel + 1, k, sleeps =>
  match collect k with
  | .noneV => { calls := k + 1, sleeps := sleeps, writes := [] }
  | .err => { calls := k + 1, sleeps := sleeps, writes := [] }
  | .ok v => { calls := k + 1, sleeps := sleeps, writes := [v] }
  | .bsy =>
    if fuel = 0 then { calls := k + 1, sleeps := sleeps, writes := [] }
    else logtempLoop collect backoff fuel (k + 1) (sleeps ++ [backoff k])

/-- `logtemp`: like `logpress` with the temperature collector. -/
def logtemp (checkFilesOk : Bool) (collect : Nat → LogCollect) (backoff : Nat → ℚ) :
    LogOut :=
  if !checkFilesOk then { calls := 0, sleeps := [], writes := [] }
  else logtempLoop collect backoff MAX_RETRIES 0 []

/- ## Two-caller interleaving of the guard admission (lines 381-386 et al.) -/

/-- Program counter of one caller running the guard-admission prologue
shared by the collectors: probe `mutex.locked()`, then
`mutex.acquire(blocking=True, timeout=MUTEX_TIMEOUT)` with the result
discarded, then the socket-exchange region, then `mutex.release()`. -/
inductive GPc where
| start : GPc
| acq : GPc
| region : GPc
| doneBusy : GPc
| done : GPc
deriving Repr, DecidableEq

/-- Shared state of two concurrent callers of one device class: the mutex
and each caller's program counter. -/
structure GState where
  lock : Bool
  pc1 : GPc
  pc2 : GPc
deriving Repr, DecidableEq

/-- Scheduler events: caller `i` runs its probe, its acquire succeeds, its
10 s acquire times out (only possible while the mutex is held — and the
source then proceeds anyway, discarding the `False`), or it releases. -/
inductive GEv where
| probe1 : GEv
| probe2 : GEv
| acqOk1 : GEv
| acqOk2 : GEv
| acqTimeout1 : GEv
| acqTimeout2 : GEv
| rel1 : GEv
| rel2 : GEv
deriving Repr, DecidableEq

/-- One interleaving step; `none` when the event is not enabled. -/
def gStep (s : GState) : GEv → Option GState
| .probe1 =>
  if s.pc1 = .start then some { s with pc1 := if s.lock then .doneBusy else .acq } else none
| .probe2 =>
  if s.pc2 = .start then some { s with pc2 := if s.lock then .doneBusy else .acq } else none
| .acqOk1 =>
  if s.pc1 = .acq ∧ s.lock = false then some { s with lock := true, pc1 := .region } else none
| .acqOk2 =>
  if s.pc2 = .acq ∧ s.lock = false then some { s with lock := true, pc2 := .region } else none
| .acqTimeout1 =>
  if s.pc1 = .acq ∧ s.lock = true then some { s with pc1 := .region } else none
| .acqTimeout2 =>
  if s.pc2 = .acq ∧ s.lock = true then some { s with pc2 := .region } else none
| .rel1 =>
  if s.pc1 = .region then some { s with lock := false, pc1 := .done } else none
| .rel2 =>
  if s.pc2 = .region then some { s with lock := false, pc2 := .done } else none

/-- Run a schedule of events from a state. -/
def gRun : GState → List GEv → Option GState
| s, [] => some s
| s, e :: es =>
  match gStep s e with
  | none => none
  | some s' => gRun s' es

/-- Both callers idle, mutex free. -/
def gInit : GState := { lock := false, pc1 := .start, pc2 := .start }

/- ## Helper lemmas -/

/-- A successful `get_tpgLoop` run appends exactly one value per remaining
channel to the accumulator. -/
theorem get_tpgLoop_ok_length (chunks : Nat → List String) :
    ∀ (chans : List Int) (r : Nat) (sent : List String) (vals w : List Dec),
    (get_tpgLoop chunks chans r sent vals).result = .ok w →
    w.length = vals.length + chans.length := by
  intro chans
  induction chans with
  | nil =>
    intro r sent vals w h
    simp only [get_tpgLoop] at h
    cases h
    simp
  | cons c cs ih =>
    intro r sent vals w h
    rw [get_tpgLoop] at h
    split at h
    · simp [tpgErrExit] at h
    · split at h
      · simp [tpgErrExit] at h
      · split at h
        · simp [tpgErrExit] at h
        · have := ih _ _ _ _ h
          simp at this
          simp [this]
          omega

/-- A successful `get_tempsLoop` run appends exactly one value per
remaining channel to the accumulator. -/
theorem get_tempsLoop_ok_length (chunks : Nat → List String) :
    ∀ (chans : List String) (i : Nat) (sent : List String) (vals w : List Dec),
    (get_tempsLoop chunks chans i sent vals).result = .ok w →
    w.length = vals.length + chans.length := by
  intro chans
  induction chans with
  | nil =>
    intro i sent vals w h
    simp only [get_tempsLoop] at h
    cases h
    simp
  | cons c cs ih =>
    intro i sent vals w h
    rw [get_tempsLoop] at h
    split at h
    · simp at h
    · simp at h
    · have := ih _ _ _ _ h
      simp at this
      simp [this]
      omega

/-- A successful `read_pressureLoop` run appends exactly one value per
remaining channel (a parsed reading or the `-1.0` placeholder). -/
theorem read_pressureLoop_ok_length (env : ReadPressEnv) :
    ∀ (chans : List Int) (r : Nat) (sent : List String) (vals w : List Dec),
    (read_pressureLoop env chans r sent vals).2 = .ok w →
    w.length = vals.length + chans.length := by
  intro chans
  induction chans with
  | nil =>
    intro r sent vals w h
    simp only [read_pressureLoop] at h
    cases h
    simp
  | cons c cs ih =>
    intro r sent vals w h
    simp only [read_pressureLoop] at h
    repeat' split at h
    all_goals
      first
        | (have hih := ih _ _ _ _ h; simp at hih; simp [hih]; omega)
        | (exfalso; simp at h)

/-- If every channel before position `pre.length` reads a value and the
channel at that position hits the busy marker, `get_tempsLoop` stops there:
it returns `'BSY'` with the socket closed and the mutex released, having
sent only the queries up to and including the busy channel. -/
theorem get_tempsLoop_busy (chunks : Nat → List String) :
    ∀ (pre : List String) (i : Nat) (bchan : String) (post : List String)
      (sent : List String) (vals : List Dec),
    (∀ j, j < pre.length → ∃ q, readChan (chunks (i + j)) = .val q) →
    readChan (chunks (i + pre.length)) = .busy →
    get_tempsLoop chunks (pre ++ bchan :: post) i sent vals
      = { result := .bsy, acquireCalled := true, released := true,
          openCalled := true, sockClosed := true,
          sent := sent ++ pre.map tempQuery ++ [tempQuery bchan] } := by
  intro pre
  induction pre with
  | nil =>
    intro i bchan post sent vals _ hbusy
    simp only [List.length_nil, Nat.add_zero] at hbusy
    simp only [List.nil_append, get_tempsLoop, hbusy, List.map_nil, List.append_nil]
  | cons p ps ih =>
    intro i bchan post sent vals hpre hbusy
    obtain ⟨q, hq⟩ := hpre 0 (by simp)
    rw [Nat.add_zero] at hq
    have hpre' : ∀ j, j < ps.length → ∃ q', readChan (chunks (i + 1 + j)) = .val q' := by
      intro j hj
      have e : i + 1 + j = i + (j + 1) := by omega
      rw [e]
      exact hpre (j + 1) (by simp only [List.length_cons]; omega)
    have hbusy' : readChan (chunks (i + 1 + ps.length)) = .busy := by
      have e : i + 1 + ps.length = i + (p :: ps).length := by
        simp only [List.length_cons]; omega
      rw [e]
      exact hbusy
    simp only [List.cons_append, get_tempsLoop, hq, List.append_eq]
    rw [ih (i + 1) bchan post (sent ++ [tempQuery p]) (vals ++ [q]) hpre' hbusy']
    simp

/-- Wrapper form of `get_tpgLoop_ok_length` for a whole `get_tpg` call. -/
theorem get_tpg_ok_length (env : TpgEnv) (w : List Dec)
    (h : (get_tpg env).result = .ok w) : w.length = env.presschans.length := by
  unfold get_tpg at h
  split at h
  · simp at h
  · split at h
    · simp at h
    · simpa using get_tpgLoop_ok_length env.chunks env.presschans 0 [] [] w h

/-- Wrapper form of `get_tempsLoop_ok_length` for a whole `get_temps` call. -/
theorem get_temps_ok_length (env : TempEnv) (w : List Dec)
    (h : (get_temps env).result = .ok w) :
    w.length = (pySplit ',' env.tempchans).length := by
  unfold get_temps at h
  split at h
  · simp at h
  · split at h
    · simp at h
    · simpa using get_tempsLoop_ok_length env.chunks (pySplit ',' env.tempchans) 0 [] [] w h

/-- Wrapper form of `read_pressureLoop_ok_length` for `read_pressure`. -/
theorem read_pressure_ok_length (env : ReadPressEnv) (w : List Dec)
    (h : (read_pressure env).2 = .ok w) : w.length = env.presschans.length := by
  simpa using read_pressureLoop_ok_length env env.presschans 0 [] [] w h

/- ## Claim theorems -/

/- ### C1 -/

/-- The interleaving that breaks mutual exclusion: both callers probe while
the mutex is free, caller 1 then acquires it, and caller 2's bounded
acquire times out — after which the source proceeds anyway. -/
def raceSchedule : List GEv := [.probe1, .probe2, .acqOk1, .acqTimeout2]

/-- C1: the claim says that of two concurrent invocations of one device
class's collection function, at most one proceeds past guard admission
into the socket-exchange region while the other returns `'BSY'`. The
probe-then-acquire admission of the source violates this: under
`raceSchedule` both callers end in the exchange region (`pc = region`)
and neither returned the busy sentinel (`doneBusy`). -/
theorem c1_race_two_exchanges_in_flight :
    gRun gInit raceSchedule = some { lock := true, pc1 := .region, pc2 := .region } := by
  rfl

/- ### C2 -/

/-- `sen_stat` receiving NAK as the first reply (any non-ACK reply). -/
def senStatNakEnv : SenEnv :=
  { lockedAtEntry := false, acquireSucceeds := true, sockOpens := true,
    chunks := fun _ => [nakStr] }

/-- `get_press` whose read loop times out before 13 bytes arrive. -/
def pressTimeoutEnv : GetPressEnv := { sockOpens := true, chunks := [] }

/-- `get_press` receiving a full, parsable 13-byte reply. -/
def pressSuccessEnv : GetPressEnv := { sockOpens := true, chunks := ["abc12.345678x"] }

/-- C2: the claim says every collection function that acquired its guard
releases it and closes its socket on every return path. The code violates
this: `sen_stat`'s non-ACK branch returns `'ERR'` from inside `try`
without `sock.close()` or `mutex_press.release()`, and `get_press`
returns `'ERR'` on a read timeout without releasing the mutex and never
closes its socket on any path, including success. -/
theorem c2_guard_leak_on_failure_paths :
    ((sen_stat senStatNakEnv).result = .err
      ∧ (sen_stat senStatNakEnv).acquireCalled = true
      ∧ (sen_stat senStatNakEnv).released = false
      ∧ (sen_stat senStatNakEnv).sockClosed = false)
    ∧ ((get_press pressTimeoutEnv).result = .err
      ∧ (get_press pressTimeoutEnv).released = false
      ∧ (get_press pressTimeoutEnv).sockClosed = false)
    ∧ ((get_press pressSuccessEnv).released = true
      ∧ (get_press pressSuccessEnv).sockClosed = false) :=
  ⟨⟨rfl, rfl, rfl, rfl⟩, ⟨rfl, rfl, rfl⟩, rfl, rfl⟩

/- ### C9 -/

/-- C9: feeding the incremental temperature reader the chunks
`["12.34", "5\n"]` accumulates the unterminated chunk, trims the second at
the terminator, and parses the joined text as the float 12.345 for that
channel. -/
theorem c9_chunk_reassembly :
    readChan ["12.34", "5\n"] = .val ⟨12345, 3⟩
    ∧ Dec.val ⟨12345, 3⟩ = (12.345 : ℚ) :=
  ⟨rfl, by norm_num [Dec.val]⟩

/- ### C10 -/

/-- C10: for a channel present in the configured `presschans` list,
`sen_onoff` returns `'ERR'` immediately — no lock acquired, no socket
opened, nothing sent; and conversely any call that reached `open_socket`
had a channel absent from the configured list. -/
theorem c10_configured_channel_rejected (env : SenOnoffEnv) (chan : Int) (onoff : Bool)
    (h : chan ∈ env.presschans) :
    sen_onoff env chan onoff
      = { result := .err, acquireCalled := false, released := false,
          openCalled := false, sockClosed := false, sent := [] }
    ∧ ∀ (env2 : SenOnoffEnv) (c2 : Int) (o2 : Bool),
        (sen_onoff env2 c2 o2).openCalled = true → c2 ∉ env2.presschans := by
  constructor
  · unfold sen_onoff
    rw [if_pos h]
  · intro env2 c2 o2 hopen hmem
    unfold sen_onoff at hopen
    rw [if_pos hmem] at hopen
    simp at hopen

/-- Witness for `c10_configured_channel_rejected` at a concrete call. -/
theorem c10_configured_channel_rejected_witness :
    sen_onoff { presschans := [1, 3, 5], pressnumchans := 6, lockedAtEntry := false,
                acquireSucceeds := true, sockOpens := true, chunks := fun _ => [] } 3 true
      = { result := .err, acquireCalled := false, released := false,
          openCalled := false, sockClosed := false, sent := [] }
    ∧ ∀ (env2 : SenOnoffEnv) (c2 : Int) (o2 : Bool),
        (sen_onoff env2 c2 o2).openCalled = true → c2 ∉ env2.presschans :=
  c10_configured_channel_rejected
    { presschans := [1, 3, 5], pressnumchans := 6, lockedAtEntry := false,
      acquireSucceeds := true, sockOpens := true, chunks := fun _ => [] } 3 true
    (by decide)

/- ### C7 -/

/-- A `get_tpg` call whose probe finds the mutex free but whose bounded
acquire times out (`acquireSucceeds := false`), with a good exchange. -/
def tpgAcqTimeoutEnv : TpgEnv :=
  { presschans := [1], lockedAtEntry := false, acquireSucceeds := false, sockOpens := true,
    chunks := fun n => if n = 0 then [ackStr] else ["0,2.5\r\n"] }

/-- C7 counterexample: the claim says that when the probe finds the lock
free but the bounded 10 s acquire fails, the function returns `'BSY'` and
performs no socket open or exchange. The source discards the result of
`mutex.acquire(blocking=True, timeout=MUTEX_TIMEOUT)`: with the acquire
timing out, `get_tpg` still opens the socket, runs the full exchange and
returns the reading. -/
theorem c7_counterexample_timeout_proceeds :
    (get_tpg tpgAcqTimeoutEnv).result = .ok [⟨25000, 1⟩]
    ∧ (get_tpg tpgAcqTimeoutEnv).openCalled = true
    ∧ (get_tpg tpgAcqTimeoutEnv).sent = ["PR1\r\n", enqStr] :=
  ⟨rfl, rfl, rfl⟩

/-- C7 amended: only the non-blocking probe yields `'BSY'` (and then no
socket open and no exchange happens); the outcome of the bounded acquire
is discarded, so the cycle proceeds identically whether or not the
acquisition succeeded. -/
theorem c7_probe_only_busy (envT : TpgEnv) (envM : TempEnv)
    (h1 : envT.lockedAtEntry = true) (h2 : envM.lockedAtEntry = true) :
    (get_tpg envT
        = { result := .bsy, acquireCalled := false, released := false,
            openCalled := false, sockClosed := false, sent := [] }
      ∧ get_temps envM
        = { result := .bsy, acquireCalled := false, released := false,
            openCalled := false, sockClosed := false, sent := [] })
    ∧ (∀ (env : TpgEnv) (b₁ b₂ : Bool),
        get_tpg { env with acquireSucceeds := b₁ }
          = get_tpg { env with acquireSucceeds := b₂ })
    ∧ (∀ (env : TempEnv) (b₁ b₂ : Bool),
        get_temps { env with acquireSucceeds := b₁ }
          = get_temps { env with acquireSucceeds := b₂ }) := by
  refine ⟨⟨?_, ?_⟩, ?_, ?_⟩
  · unfold get_tpg
    rw [h1]
    rfl
  · unfold get_temps
    rw [h2]
    rfl
  · intro env b₁ b₂
    rfl
  · intro env b₁ b₂
    rfl

/-- Witness for `c7_probe_only_busy` at concrete locked-at-entry calls. -/
theorem c7_probe_only_busy_witness :
    (get_tpg { presschans := [1], lockedAtEntry := true, acquireSucceeds := true,
               sockOpens := true, chunks := fun _ => [] }
        = { result := .bsy, acquireCalled := false, released := false,
            openCalled := false, sockClosed := false, sent := [] }
      ∧ get_temps { tempchans := "A", lockedAtEntry := true, acquireSucceeds := true,
                    sockOpens := true, chunks := fun _ => [] }
        = { result := .bsy, acquireCalled := false, released := false,
            openCalled := false, sockClosed := false, sent := [] })
    ∧ (∀ (env : TpgEnv) (b₁ b₂ : Bool),
        get_tpg { env with acquireSucceeds := b₁ }
          = get_tpg { env with acquireSucceeds := b₂ })
    ∧ (∀ (env : TempEnv) (b₁ b₂ : Bool),
        get_temps { env with acquireSucceeds := b₁ }
          = get_temps { env with acquireSucceeds := b₂ }) :=
  c7_probe_only_busy
    { presschans := [1], lockedAtEntry := true, acquireSucceeds := true,
      sockOpens := true, chunks := fun _ => [] }
    { tempchans := "A", lockedAtEntry := true, acquireSucceeds := true,
      sockOpens := true, chunks := fun _ => [] }
    rfl rfl

/- ### C5 -/

/-- A `get_tpg` call whose first reply is NAK (not ACK) but whose data
reply is well-formed. -/
def tpgNakEnv : TpgEnv :=
  { presschans := [1], lockedAtEntry := false, acquireSucceeds := true, sockOpens := true,
    chunks := fun n => if n = 0 then [nakStr] else ["0,2.5\r\n"] }

/-- C5 counterexample: the claim says a non-ACK first reply still leads to
ENQ being sent before the data reply is read. In `get_tpg` the ENQ send
sits in the `if ret == ACK` branch only: with a NAK first reply the sent
trace holds no ENQ at all, although the data reply is still read and the
reading returned. -/
theorem c5_counterexample_get_tpg_skips_enq :
    get_tpg tpgNakEnv
      = { result := .ok [⟨25000, 1⟩], acquireCalled := true, released := true,
          openCalled := true, sockClosed := true, sent := ["PR1\r\n"] }
    ∧ enqStr ∉ (get_tpg tpgNakEnv).sent := by
  refine ⟨rfl, ?_⟩
  decide

/-- C5 amended: with a single configured channel, a non-ACK first reply
and a well-formed data reply, both clients log the mismatch and still read
the data reply, but only `read_pressure` (cryopress.py) sends ENQ — its
unconditional send after the ACK check — while `get_tpg` (logcryo.py)
sends no ENQ at all for that channel. -/
theorem c5_enq_behavior (c : Int) (envR : ReadPressEnv) (envT : TpgEnv)
    (r s f0 f1 : String) (q : Dec) (n : Int)
    (hRc : envR.presschans = [c]) (hTc : envT.presschans = [c])
    (hR1 : get_reply none (envR.chunks 0) = some r)
    (hT1 : read_tpg (envT.chunks 0) = some r)
    (hnak : r ≠ ackStr)
    (hR2 : get_reply none (envR.chunks 1) = some s)
    (hT2 : read_tpg (envT.chunks 1) = some s)
    (hsplit : pySplit ',' s = [f0, f1])
    (hint : parseInt f0 = some n)
    (hq : parseFloat f1 = some q)
    (hlock : envT.lockedAtEntry = false) (hsock : envT.sockOpens = true) :
    read_pressure envR = ([prCommand c, enqStr], .ok [q.mul1000])
    ∧ get_tpg envT
        = { result := .ok [q.mul1000], acquireCalled := true, released := true,
            openCalled := true, sockClosed := true, sent := [prCommand c] } := by
  constructor
  · unfold read_pressure
    rw [hRc]
    simp [read_pressureLoop, hR1, hnak, hR2, hsplit, hint, hq]
  · unfold get_tpg
    rw [hlock, hsock, hTc]
    simp [get_tpgLoop, hT1, hnak, hT2, hsplit, hq]

/-- Witness for `c5_enq_behavior` at a concrete exchange. -/
theorem c5_enq_behavior_witness :
    read_pressure { presschans := [1],
                    chunks := fun n => if n = 0 then [nakStr] else ["0,2.5\r\n"] }
      = ([prCommand 1, enqStr], .ok [Dec.mul1000 ⟨25, 1⟩])
    ∧ get_tpg { presschans := [1], lockedAtEntry := false, acquireSucceeds := true,
                sockOpens := true,
                chunks := fun n => if n = 0 then [nakStr] else ["0,2.5\r\n"] }
        = { result := .ok [Dec.mul1000 ⟨25, 1⟩], acquireCalled := true, released := true,
            openCalled := true, sockClosed := true, sent := [prCommand 1] } :=
  c5_enq_behavior 1
    { presschans := [1], chunks := fun n => if n = 0 then [nakStr] else ["0,2.5\r\n"] }
    { presschans := [1], lockedAtEntry := false, acquireSucceeds := true,
      sockOpens := true, chunks := fun n => if n = 0 then [nakStr] else ["0,2.5\r\n"] }
    nakStr "0,2.5\r\n" "0" "2.5\r\n" ⟨25, 1⟩ 0
    rfl rfl rfl rfl (by decide) rfl rfl rfl rfl rfl rfl rfl

/- ### C4 -/

/-- A `read_pressure` call whose data reply `"0\r\n"` has no
comma-separated value field. -/
def rpMissingFieldEnv : ReadPressEnv :=
  { presschans := [1], chunks := fun n => if n = 0 then [ackStr] else ["0\r\n"] }

/-- A `get_tpg` call whose data reply `"0\r\n"` has no comma-separated
value field. -/
def tpgMissingFieldEnv : TpgEnv :=
  { presschans := [1], lockedAtEntry := false, acquireSucceeds := true, sockOpens := true,
    chunks := fun n => if n = 0 then [ackStr] else ["0\r\n"] }

/-- C4 counterexample: the claim says a pressure reply missing the value
field makes the whole cycle return the Error sentinel. `read_pressure`
(cryopress.py) instead catches the `IndexError` and appends the `-1.0`
placeholder, completing the cycle with a filled reading rather than any
error return. -/
theorem c4_counterexample_read_pressure_placeholder :
    read_pressure rpMissingFieldEnv
      = (["PR1\r\n", enqStr, enqStr], .ok [⟨-1, 0⟩]) := by
  rfl

/-- C4 amended: every successfully returned reading carries exactly one
value per configured channel after the timestamp entry (in all three
collectors); a reply missing the value field aborts the cycle with `'ERR'`
in `get_tpg`, but in `read_pressure` it records the `-1.0` placeholder for
that channel and the cycle completes. -/
theorem c4_reading_shape (envT : TpgEnv) (envM : TempEnv) (envR : ReadPressEnv)
    (w1 w2 w3 : List Dec)
    (h1 : (get_tpg envT).result = .ok w1)
    (h2 : (get_temps envM).result = .ok w2)
    (h3 : (read_pressure envR).2 = .ok w3) :
    w1.length = envT.presschans.length
    ∧ w2.length = (pySplit ',' envM.tempchans).length
    ∧ w3.length = envR.presschans.length
    ∧ (get_tpg tpgMissingFieldEnv).result = .err
    ∧ (read_pressure rpMissingFieldEnv).2 = .ok [⟨-1, 0⟩] :=
  ⟨get_tpg_ok_length envT w1 h1, get_temps_ok_length envM w2 h2,
   read_pressure_ok_length envR w3 h3, rfl, rfl⟩

/-- A `get_tpg` call with one channel and a well-formed exchange. -/
def c4TpgOkEnv : TpgEnv :=
  { presschans := [1], lockedAtEntry := false, acquireSucceeds := true, sockOpens := true,
    chunks := fun n => if n = 0 then [ackStr] else ["0,2.5\r\n"] }

/-- A `get_temps` call with one channel and a well-formed read. -/
def c4TempOkEnv : TempEnv :=
  { tempchans := "A", lockedAtEntry := false, acquireSucceeds := true, sockOpens := true,
    chunks := fun _ => ["12.34", "5\n"] }

/-- A `read_pressure` call with one channel and a well-formed exchange. -/
def c4RpOkEnv : ReadPressEnv :=
  { presschans := [1], chunks := fun n => if n = 0 then [ackStr] else ["0,2.5\r\n"] }

/-- Witness for `c4_reading_shape` at concrete successful cycles. -/
theorem c4_reading_shape_witness :
    ([Dec.mul1000 ⟨25, 1⟩] : List Dec).length = (c4TpgOkEnv.presschans).length
    ∧ ([(⟨12345, 3⟩ : Dec)] : List Dec).length
        = (pySplit ',' (c4TempOkEnv.tempchans)).length
    ∧ ([Dec.mul1000 ⟨25, 1⟩] : List Dec).length = (c4RpOkEnv.presschans).length
    ∧ (get_tpg tpgMissingFieldEnv).result = .err
    ∧ (read_pressure rpMissingFieldEnv).2 = .ok [⟨-1, 0⟩] :=
  c4_reading_shape c4TpgOkEnv c4TempOkEnv c4RpOkEnv
    [Dec.mul1000 ⟨25, 1⟩] [⟨12345, 3⟩] [Dec.mul1000 ⟨25, 1⟩] rfl rfl rfl

/- ### C6 -/

/-- A terminator can only appear in a joined string if one of the pieces
holds it. -/
theorem hasLF_append (p t : String) : hasLF (p ++ t) = (hasLF p || hasLF t) := by
  simp [hasLF, String.data_append]

/-- If the chunks received so far contain neither the busy marker nor a
terminator and the next chunk carries the busy marker, the receive loop of
`get_temps` reports busy, whatever arrives afterwards. -/
theorem tempReadLoop_busy_of_marker :
    ∀ (cs1 datl : List String) (b : String) (cs2 : List String),
    (∀ c ∈ cs1, containsSub huntBusy c = false ∧ hasLF c = false) →
    (∀ d ∈ datl, hasLF d = false) →
    containsSub huntBusy b = true →
    tempReadLoop datl (cs1 ++ b :: cs2) = .busy := by
  intro cs1
  induction cs1 with
  | nil =>
    intro datl b cs2 _ _ hb
    simp [tempReadLoop, hb]
  | cons c cs ih =>
    intro datl b cs2 hclean hdatl hb
    obtain ⟨hcb, hclf⟩ := hclean c (by simp)
    have hdatl' : ∀ d ∈ datl ++ [c], hasLF d = false := by
      intro d hd
      rcases List.mem_append.mp hd with h | h
      · exact hdatl d h
      · simp only [List.mem_singleton] at h
        rw [h]
        exact hclf
    have hclean' : ∀ x ∈ cs, containsSub huntBusy x = false ∧ hasLF x = false :=
      fun x hx => hclean x (by simp [hx])
    simp only [List.cons_append, tempReadLoop, hcb, hclf, Bool.false_eq_true, if_false]
    cases hgl : datl.getLast? with
    | none =>
      exact ih (datl ++ [c]) b cs2 hclean' hdatl' hb
    | some p =>
      have hp : hasLF p = false := hdatl p (List.mem_of_getLast?_eq_some hgl)
      dsimp only
      rw [hasLF_append, hp, hclf]
      simp only [Bool.or_self, Bool.false_eq_true, if_false]
      exact ih (datl ++ [c]) b cs2 hclean' hdatl' hb

/-- `readChan` form of `tempReadLoop_busy_of_marker`. -/
theorem readChan_busy_of_marker (cs1 : List String) (b : String) (cs2 : List String)
    (hclean : ∀ c ∈ cs1, containsSub huntBusy c = false ∧ hasLF c = false)
    (hb : containsSub huntBusy b = true) :
    readChan (cs1 ++ b :: cs2) = .busy := by
  unfold readChan
  rw [tempReadLoop_busy_of_marker cs1 [] b cs2 hclean (by simp) hb]

/-- C6: during a temperature collection, once a received chunk carries the
"Selected hunt group busy" marker (at channel position `pre.length`, after
the earlier channels read values), `get_temps` aborts at that channel —
only the queries up to and including it are ever sent — and returns
`'BSY'` with the socket closed and the temperature mutex released. -/
theorem c6_hunt_busy_aborts (env : TempEnv) (pre : List String) (bchan : String)
    (post cs1 : List String) (b : String) (cs2 : List String)
    (hch : pySplit ',' env.tempchans = pre ++ bchan :: post)
    (hlock : env.lockedAtEntry = false) (hsock : env.sockOpens = true)
    (hpre : ∀ j, j < pre.length → ∃ q, readChan (env.chunks j) = .val q)
    (hchunks : env.chunks pre.length = cs1 ++ b :: cs2)
    (hclean : ∀ c ∈ cs1, containsSub huntBusy c = false ∧ hasLF c = false)
    (hmark : containsSub huntBusy b = true) :
    get_temps env
      = { result := .bsy, acquireCalled := true, released := true,
          openCalled := true, sockClosed := true,
          sent := pre.map tempQuery ++ [tempQuery bchan] } := by
  have hbusy : readChan (env.chunks pre.length) = .busy := by
    rw [hchunks]
    exact readChan_busy_of_marker cs1 b cs2 hclean hmark
  unfold get_temps
  rw [hlock, hsock]
  simp only [Bool.not_true, Bool.false_eq_true, if_false]
  rw [hch]
  have := get_tempsLoop_busy env.chunks pre 0 bchan post [] []
    (by intro j hj; simpa using hpre j hj) (by simpa using hbusy)
  simpa using this

/-- Witness for `c6_hunt_busy_aborts`: channel A reads 1.0, channel B hits
the busy marker, channel C is never queried. -/
theorem c6_hunt_busy_aborts_witness :
    get_temps { tempchans := "A,B,C", lockedAtEntry := false, acquireSucceeds := true,
                sockOpens := true,
                chunks := fun n => if n = 0 then ["1.0\n"]
                  else ["Selected hunt group busy"] }
      = { result := .bsy, acquireCalled := true, released := true,
          openCalled := true, sockClosed := true,
          sent := (["A"].map tempQuery) ++ [tempQuery "B"] } :=
  c6_hunt_busy_aborts
    { tempchans := "A,B,C", lockedAtEntry := false, acquireSucceeds := true,
      sockOpens := true,
      chunks := fun n => if n = 0 then ["1.0\n"] else ["Selected hunt group busy"] }
    ["A"] "B" ["C"] [] "Selected hunt group busy" []
    rfl rfl rfl
    (fun j hj => by
      have hj0 : j = 0 := Nat.lt_one_iff.mp (by simpa using hj)
      rw [hj0]
      exact ⟨⟨10, 1⟩, rfl⟩)
    rfl
    (fun c hc => absurd hc (List.not_mem_nil c))
    rfl

/- ### C3 -/

/-- A busy result with fuel to spare: sleep one backoff draw and retry. -/
theorem logpressLoop_bsy_step (collect : Nat → LogCollect) (backoff : Nat → ℚ)
    (fuel k : Nat) (sleeps : List ℚ) (h : collect k = .bsy) :
    logpressLoop collect backoff (fuel + 2) k sleeps
      = logpressLoop collect backoff (fuel + 1) (k + 1) (sleeps ++ [backoff k]) := by
  show logpressLoop collect backoff (fuel + 1 + 1) k sleeps = _
  rw [logpressLoop, h]
  simp

/-- A busy result on the last attempt: give up with no write. -/
theorem logpressLoop_bsy_last (collect : Nat → LogCollect) (backoff : Nat → ℚ)
    (k : Nat) (sleeps : List ℚ) (h : collect k = .bsy) :
    logpressLoop collect backoff 1 k sleeps
      = { calls := k + 1, sleeps := sleeps, writes := [] } := by
  show logpressLoop collect backoff (0 + 1) k sleeps = _
  rw [logpressLoop, h]
  simp

/-- An error result: return immediately with no write and no retry. -/
theorem logpressLoop_err (collect : Nat → LogCollect) (backoff : Nat → ℚ)
    (fuel k : Nat) (sleeps : List ℚ) (h : collect k = .err) :
    logpressLoop collect backoff (fuel + 1) k sleeps
      = { calls := k + 1, sleeps := sleeps, writes := [] } := by
  rw [logpressLoop, h]

/-- A reading: write it to the day file and the cumulative file and stop. -/
theorem logpressLoop_ok (collect : Nat → LogCollect) (backoff : Nat → ℚ)
    (fuel k : Nat) (sleeps : List ℚ) (v : List Dec) (h : collect k = .ok v) :
    logpressLoop collect backoff (fuel + 1) k sleeps
      = { calls := k + 1, sleeps := sleeps, writes := [v, v] } := by
  rw [logpressLoop, h]

/-- `logtempLoop` analogue of `logpressLoop_bsy_step`. -/
theorem logtempLoop_bsy_step (collect : Nat → LogCollect) (backoff : Nat → ℚ)
    (fuel k : Nat) (sleeps : List ℚ) (h : collect k = .bsy) :
    logtempLoop collect backoff (fuel + 2) k sleeps
      = logtempLoop collect backoff (fuel + 1) (k + 1) (sleeps ++ [backoff k]) := by
  show logtempLoop collect backoff (fuel + 1 + 1) k sleeps = _
  rw [logtempLoop, h]
  simp

/-- `logtempLoop` analogue of `logpressLoop_bsy_last`. -/
theorem logtempLoop_bsy_last (collect : Nat → LogCollect) (backoff : Nat → ℚ)
    (k : Nat) (sleeps : List ℚ) (h : collect k = .bsy) :
    logtempLoop collect backoff 1 k sleeps
      = { calls := k + 1, sleeps := sleeps, writes := [] } := by
  show logtempLoop collect backoff (0 + 1) k sleeps = _
  rw [logtempLoop, h]
  simp

/-- `logtempLoop` analogue of `logpressLoop_err`. -/
theorem logtempLoop_err (collect : Nat → LogCollect) (backoff : Nat → ℚ)
    (fuel k : Nat) (sleeps : List ℚ) (h : collect k = .err) :
    logtempLoop collect backoff (fuel + 1) k sleeps
      = { calls := k + 1, sleeps := sleeps, writes := [] } := by
  rw [logtempLoop, h]

/-- `logtempLoop` analogue of `logpressLoop_ok` (one file write). -/
theorem logtempLoop_ok (collect : Nat → LogCollect) (backoff : Nat → ℚ)
    (fuel k : Nat) (sleeps : List ℚ) (v : List Dec) (h : collect k = .ok v) :
    logtempLoop collect backoff (fuel + 1) k sleeps
      = { calls := k + 1, sleeps := sleeps, writes := [v] } := by
  rw [logtempLoop, h]

/-- C3: the retry wrapper invokes an always-busy collector exactly
`MAX_RETRIES = 3` times, sleeping a fresh uniform draw from `[1, 5)`
between consecutive invocations (two sleeps for three calls), and gives up
for the cycle without writing anything; an `'ERR'` result is not retried
(one call, no write); a successful reading stops after the first call.
Both `logpress` and `logtemp` behave this way. -/
theorem c3_retry_policy (collectB collectE collectO : Nat → LogCollect)
    (backoff : Nat → ℚ) (vals : List Dec)
    (hB : ∀ k, collectB k = .bsy) (hE : collectE 0 = .err) (hO : collectO 0 = .ok vals)
    (hr : ∀ k, 1 ≤ backoff k ∧ backoff k < 5) :
    (logpress true collectB backoff
        = { calls := 3, sleeps := [backoff 0, backoff 1], writes := [] }
      ∧ ∀ t ∈ (logpress true collectB backoff).sleeps, 1 ≤ t ∧ t < 5)
    ∧ logpress true collectE backoff = { calls := 1, sleeps := [], writes := [] }
    ∧ logpress true collectO backoff = { calls := 1, sleeps := [], writes := [vals, vals] }
    ∧ logtemp true collectB backoff
        = { calls := 3, sleeps := [backoff 0, backoff 1], writes := [] }
    ∧ logtemp true collectE backoff = { calls := 1, sleeps := [], writes := [] }
    ∧ logtemp true collectO backoff = { calls := 1, sleeps := [], writes := [vals] } := by
  have e3 : logpressLoop collectB backoff 3 0 []
      = logpressLoop collectB backoff 2 1 [backoff 0] :=
    logpressLoop_bsy_step collectB backoff 1 0 [] (hB 0)
  have e2 : logpressLoop collectB backoff 2 1 [backoff 0]
      = logpressLoop collectB backoff 1 2 [backoff 0, backoff 1] :=
    logpressLoop_bsy_step collectB backoff 0 1 [backoff 0] (hB 1)
  have e1 : logpressLoop collectB backoff 1 2 [backoff 0, backoff 1]
      = { calls := 3, sleeps := [backoff 0, backoff 1], writes := [] } :=
    logpressLoop_bsy_last collectB backoff 2 [backoff 0, backoff 1] (hB 2)
  have hpB : logpress true collectB backoff
      = { calls := 3, sleeps := [backoff 0, backoff 1], writes := [] } := by
    show logpressLoop collectB backoff 3 0 [] = _
    rw [e3, e2, e1]
  have t3 : logtempLoop collectB backoff 3 0 []
      = logtempLoop collectB backoff 2 1 [backoff 0] :=
    logtempLoop_bsy_step collectB backoff 1 0 [] (hB 0)
  have t2 : logtempLoop collectB backoff 2 1 [backoff 0]
      = logtempLoop collectB backoff 1 2 [backoff 0, backoff 1] :=
    logtempLoop_bsy_step collectB backoff 0 1 [backoff 0] (hB 1)
  have t1 : logtempLoop collectB backoff 1 2 [backoff 0, backoff 1]
      = { calls := 3, sleeps := [backoff 0, backoff 1], writes := [] } :=
    logtempLoop_bsy_last collectB backoff 2 [backoff 0, backoff 1] (hB 2)
  have htB : logtemp true collectB backoff
      = { calls := 3, sleeps := [backoff 0, backoff 1], writes := [] } := by
    show logtempLoop collectB backoff 3 0 [] = _
    rw [t3, t2, t1]
  refine ⟨⟨hpB, ?_⟩, ?_, ?_, htB, ?_, ?_⟩
  · rw [hpB]
    intro t ht
    rcases List.mem_cons.mp ht with h | h
    · rw [h]; exact hr 0
    · rcases List.mem_cons.mp h with h' | h'
      · rw [h']; exact hr 1
      · exact absurd h' (List.not_mem_nil t)
  · show logpressLoop collectE backoff 3 0 [] = _
    exact logpressLoop_err collectE backoff 2 0 [] hE
  · show logpressLoop collectO backoff 3 0 [] = _
    exact logpressLoop_ok collectO backoff 2 0 [] vals hO
  · show logtempLoop collectE backoff 3 0 [] = _
    exact logtempLoop_err collectE backoff 2 0 [] hE
  · show logtempLoop collectO backoff 3 0 [] = _
    exact logtempLoop_ok collectO backoff 2 0 [] vals hO

/-- Witness for `c3_retry_policy` with concrete collectors and backoff 2 s. -/
theorem c3_retry_policy_witness :
    (logpress true (fun _ => LogCollect.bsy) (fun _ => 2)
        = { calls := 3, sleeps := [2, 2], writes := [] }
      ∧ ∀ t ∈ (logpress true (fun _ => LogCollect.bsy) (fun _ => 2)).sleeps,
          1 ≤ t ∧ t < 5)
    ∧ logpress true (fun _ => LogCollect.err) (fun _ => 2)
        = { calls := 1, sleeps := [], writes := [] }
    ∧ logpress true (fun _ => LogCollect.ok [⟨1, 0⟩]) (fun _ => 2)
        = { calls := 1, sleeps := [], writes := [[⟨1, 0⟩], [⟨1, 0⟩]] }
    ∧ logtemp true (fun _ => LogCollect.bsy) (fun _ => 2)
        = { calls := 3, sleeps := [2, 2], writes := [] }
    ∧ logtemp true (fun _ => LogCollect.err) (fun _ => 2)
        = { calls := 1, sleeps := [], writes := [] }
    ∧ logtemp true (fun _ => LogCollect.ok [⟨1, 0⟩]) (fun _ => 2)
        = { calls := 1, sleeps := [], writes := [[⟨1, 0⟩]] } :=
  c3_retry_policy (fun _ => .bsy) (fun _ => .err) (fun _ => .ok [⟨1, 0⟩])
    (fun _ => 2) [⟨1, 0⟩] (fun _ => rfl) rfl rfl
    (fun _ => ⟨by norm_num, by norm_num⟩)

/- ### C8 -/

/-- C8: with a 6-channel controller, `sen_onoff` turning channel 3 on
sends the literal CRLF-terminated command `SEN,0,0,2,0,0,0` as its first
message: one field per controller channel, the target set to 2 and every
other channel 0 (no change). The call reaches the send only when channel 3
is absent from the configured list, the probe finds the mutex free, and
the socket opens. -/
theorem c8_sen_onoff_command (env : SenOnoffEnv)
    (hn : env.pressnumchans = 6) (hch : (3 : Int) ∉ env.presschans)
    (hlock : env.lockedAtEntry = false) (hsock : env.sockOpens = true) :
    (sen_onoff env 3 true).sent.head? = some "SEN,0,0,2,0,0,0\r\n" := by
  unfold sen_onoff
  rw [if_neg hch, hlock, hsock, hn]
  simp only [Bool.false_eq_true, if_false, Bool.not_true]
  repeat' split
  all_goals rfl

/-- Witness for `c8_sen_onoff_command` at a concrete call. -/
theorem c8_sen_onoff_command_witness :
    (sen_onoff { presschans := [1, 5], pressnumchans := 6, lockedAtEntry := false,
                 acquireSucceeds := true, sockOpens := true,
                 chunks := fun _ => [] } 3 true).sent.head?
      = some "SEN,0,0,2,0,0,0\r\n" :=
  c8_sen_onoff_command
    { presschans := [1, 5], pressnumchans := 6, lockedAtEntry := false,
      acquireSucceeds := true, sockOpens := true, chunks := fun _ => [] }
    rfl (by decide) rfl rfl

